import Mathlib

/-
Verification of the xDSnap reachability/fallback layer and capture
orchestration, as a shallow embedding of the Go sources:

  nomad/exec_strategy.go : HTTP-tool probing, exec-strategy resolution and
                           per-method command synthesis;
  nomad/api.go           : direct-IP Envoy admin GET/POST and the exec-based
                           fallback commands;
  pkg/cmd/snap.go        : fetchEnvoyEndpoint, setEnvoyLogLevel and
                           CaptureSnapshot (the capture orchestrator).

External effects (exec calls into a task, direct HTTP responses, the
filesystem) are modelled as explicit environment records, so every embedded
function is a pure, executable Lean definition.  Go machine integers are
modelled as Int, Go byte strings as String, fallible Go calls as
Option/Except.
-/

/- ### Execution capability model

`ExecuteCommandWithStderr(allocID, task, command, ...) -> (exitCode, err)` is
modelled as a function from the allocation id, the task name and the command
vector to an outcome record.  `err` models a non-nil Go error (transport
failure); `exit` is the remote exit code. -/

structure ExecResult where
  exit : Int
  err : Bool
  stdout : String
deriving DecidableEq, Repr

/-- The exec capability consumed by the strategy layer: allocation id, task,
command vector to outcome. -/
def Svc : Type := String → String → List String → ExecResult

/-- One exec call issued into a task (used to trace which commands a capture
call actually runs). -/
structure ExecCall where
  task : String
  cmd : List String
deriving DecidableEq, Repr

/- ### nomad/exec_strategy.go -/

/-- Go `type HTTPMethod int`. -/
abbrev HTTPMethod := Int

def MethodCurl : HTTPMethod := 0
def MethodWget : HTTPMethod := 1
def MethodPython3 : HTTPMethod := 2
def MethodNode : HTTPMethod := 3
def MethodBashTCP : HTTPMethod := 4

/-- `ExecStrategy` from exec_strategy.go: which task and HTTP method to use
for Envoy admin access. -/
structure ExecStrategy where
  task : String
  method : HTTPMethod
deriving DecidableEq, Repr

/-- `probeCommands` from exec_strategy.go: lightweight commands used to detect
available HTTP tools, in the fixed preference order
curl, wget, python3, node, bash. -/
def probeCommands : List (HTTPMethod × List String) :=
  [ (MethodCurl, ["curl", "--version"]),
    (MethodWget, ["wget", "--version"]),
    (MethodPython3, ["python3", "--version"]),
    (MethodNode, ["node", "--version"]),
    (MethodBashTCP, ["bash", "-c", "echo ok"]) ]

/-- The probe-success test from ProbeHTTPCapability:
`err == nil && exitCode == 0`. -/
def execOK (r : ExecResult) : Bool :=
  !r.err && r.exit == 0

/-- `ProbeHTTPCapability` from exec_strategy.go: walks `probeCommands` in
order and returns the first method whose probe command executes without a
transport error and exits 0; `none` models the `(0, false)` miss return. -/
def ProbeHTTPCapability (svc : Svc) (allocID task : String) : Option HTTPMethod :=
  (probeCommands.find? (fun probe => execOK (svc allocID task probe.2))).map (fun probe => probe.1)

/-- Outcome of ResolveExecStrategy.  `panicked` models the Go runtime panic
raised by the bounds-checked slice `allocID[:8]` in the error path when
`len(allocID) < 8`. -/
inductive ResolveOutcome where
  | panicked
  | failed (msg : String)
  | ok (s : ExecStrategy)
deriving DecidableEq, Repr

/-- The resolution-failure message built by ResolveExecStrategy (source lines
89-93); `allocID.take 8` is Go `allocID[:8]`, which is only evaluated here
once the length is at least 8. -/
def resolveFailMsg (allocID : String) (tried : List String) : String :=
  "no HTTP tool found in any task for allocation " ++ allocID.take 8 ++
  "\n  Tried: " ++ String.intercalate ", " tried ++
  "\n  Hint: ensure curl, wget, python3, node, or bash is available in at least one task"

/-- The task loop of ResolveExecStrategy, with the accumulated `tried` list
made explicit.  Go slices `allocID[:8]` in the failure message with no length
check: when `len(allocID) < 8` that slice panics, modelled by `panicked`. -/
def resolveLoop (svc : Svc) (allocID : String) : List String → List String → ResolveOutcome
  | [], tried =>
      if allocID.length < 8 then ResolveOutcome.panicked
      else ResolveOutcome.failed (resolveFailMsg allocID tried)
  | task :: rest, tried =>
      match ProbeHTTPCapability svc allocID task with
      | some method => ResolveOutcome.ok ⟨task, method⟩
      | none => resolveLoop svc allocID rest (tried ++ [task])

/-- `ResolveExecStrategy` from exec_strategy.go: iterates `taskOrder`, probes
each task, and returns the first working (task, method) pair. -/
def ResolveExecStrategy (svc : Svc) (allocID : String) (taskOrder : List String) : ResolveOutcome :=
  resolveLoop svc allocID taskOrder []

/-- Go `fmt.Sprintf("http://127.0.0.2:%d%s", port, path)`. -/
def adminURL (port : Int) (path : String) : String :=
  "http://127.0.0.2:" ++ toString port ++ path

/-- `BuildGETCommand` from exec_strategy.go: the exec command for a GET
request with the given method, one fixed template per method; Go's `switch`
default returns nil, modelled as `none`. -/
def BuildGETCommand (method : HTTPMethod) (port : Int) (path : String) : Option (List String) :=
  if method = MethodCurl then
    some ["curl", "-s", adminURL port path]
  else if method = MethodWget then
    some ["wget", "-qO-", adminURL port path]
  else if method = MethodPython3 then
    some ["python3", "-c",
      "import urllib.request,sys;sys.stdout.buffer.write(urllib.request.urlopen(\"" ++
      adminURL port path ++ "\").read())"]
  else if method = MethodNode then
    some ["node", "-e",
      "var http=require(\"http\");http.get(\"" ++ adminURL port path ++
      "\",function(r)\x7bvar d=[];r.on(\"data\",function(c)\x7bd.push(c)\x7d);r.on(\"end\",function()\x7bprocess.stdout.write(Buffer.concat(d))\x7d)\x7d).on(\"error\",function()\x7bprocess.exit(1)\x7d)"]
  else if method = MethodBashTCP then
    some ["bash", "-c",
      "exec 3<>/dev/tcp/127.0.0.2/" ++ toString port ++
      "; echo -e \"GET " ++ path ++
      " HTTP/1.1\\r\\nHost: localhost\\r\\nConnection: close\\r\\n\\r\\n\" >&3; cat <&3"]
  else
    none

/-- `BuildPOSTCommand` from exec_strategy.go: the exec command for a POST
request with the given method; unrecognized methods yield `none`. -/
def BuildPOSTCommand (method : HTTPMethod) (port : Int) (path : String) : Option (List String) :=
  if method = MethodCurl then
    some ["curl", "-s", "-X", "POST", adminURL port path]
  else if method = MethodWget then
    some ["wget", "-qO-", "--post-data=", adminURL port path]
  else if method = MethodPython3 then
    some ["python3", "-c",
      "import urllib.request;urllib.request.urlopen(urllib.request.Request(\"" ++
      adminURL port path ++ "\",data=b\"\",method=\"POST\"))"]
  else if method = MethodNode then
    some ["node", "-e",
      "var http=require(\"http\");var r=http.request(\x7bhostname:\"127.0.0.2\",port:" ++
      toString port ++ ",path:\"" ++ path ++
      "\",method:\"POST\"\x7d,function(res)\x7bres.resume()\x7d);r.on(\"error\",function()\x7bprocess.exit(1)\x7d);r.end()"]
  else if method = MethodBashTCP then
    some ["bash", "-c",
      "exec 3<>/dev/tcp/127.0.0.2/" ++ toString port ++
      "; echo -e \"POST " ++ path ++
      " HTTP/1.1\\r\\nHost: localhost\\r\\nConnection: close\\r\\nContent-Length: 0\\r\\n\\r\\n\" >&3; cat <&3"]
  else
    none

/- ### nomad/api.go : direct-IP admin access and the exec fallback -/

/-- `const EnvoyAdminPort = 19000` from api.go. -/
def EnvoyAdminPort : Int := 19000

/-- An HTTP response as observed by the direct-IP client: the status code,
the body, and whether reading the body failed (`io.ReadAll` error). A failed
request (`client.Get`/`client.Post` returning an error) is modelled as the
absence of a response (`Option.none` at the call site). -/
structure HTTPResponse where
  status : Int
  body : String
  readErr : Bool
deriving DecidableEq, Repr

/-- `EnvoyAdminGET` from api.go (direct IP): a transport error is an error;
a body-read error is an error; a status `>= 400` is an error; anything else
returns the body as success. -/
def EnvoyAdminGET (resp : Option HTTPResponse) : Except String String :=
  match resp with
  | none => Except.error "GET failed"
  | some r =>
      if r.readErr then Except.error "failed to read response"
      else if 400 ≤ r.status then
        Except.error ("returned " ++ toString r.status ++ ": " ++ r.body)
      else Except.ok r.body

/-- `EnvoyAdminPOST` from api.go (direct IP): a transport error is an error;
a status `>= 400` is an error (the body is read only to build the message);
anything else is success. -/
def EnvoyAdminPOST (resp : Option HTTPResponse) : Except String Unit :=
  match resp with
  | none => Except.error "POST failed"
  | some r =>
      if 400 ≤ r.status then
        Except.error ("returned " ++ toString r.status ++ ": " ++ r.body)
      else Except.ok ()

/-- Except-to-Bool success projection used by the statements below. -/
def isOkE {α : Type} : Except String α → Bool
  | Except.ok _ => true
  | Except.error _ => false

/-- The fixed exec GET command of `EnvoyAdminGETViaExec` (api.go):
`sh -c "curl -s http://127.0.0.1:<port><path>"` — hardcoded curl through sh,
independent of any probe. -/
def execCurlGETCmd (port : Int) (path : String) : List String :=
  ["sh", "-c", "curl -s http://127.0.0.1:" ++ toString port ++ path]

/-- The fixed exec POST command of `EnvoyAdminPOSTViaExec` (api.go):
`sh -c "curl -s -X POST http://127.0.0.1:<port><path>"`. -/
def execCurlPOSTCmd (port : Int) (path : String) : List String :=
  ["sh", "-c", "curl -s -X POST http://127.0.0.1:" ++ toString port ++ path]

/-- Does a command vector coincide with one of the availability probes of
exec_strategy.go? -/
def isProbeCmd (cmd : List String) : Bool :=
  (probeCommands.map (fun probe => probe.2)).contains cmd

/- ### pkg/cmd/snap.go : endpoint fetch, log level, capture orchestration -/

/-- `SnapshotConfig` from snap.go (Duration in seconds). -/
structure SnapshotConfig where
  allocID : String
  allocIP : String
  taskName : String
  sidecarTask : String
  endpoints : List String
  outputDir : String
  extraLogs : List String
  duration : Nat
  enableTrace : Bool
  tcpdumpEnabled : Bool
  skipLogLevelReset : Bool
deriving DecidableEq, Repr

/-- `DefaultEndpoints` from snap.go. -/
def DefaultEndpoints : List String :=
  ["/stats", "/config_dump", "/listeners", "/clusters", "/certs"]

/-- The external world as seen by one endpoint fetch / log-level call:
`directGET i` is the response body of the i-th direct `EnvoyAdminGET` attempt
(`none` = the attempt returned an error), `directPOSTOk` the outcome of the
single direct `EnvoyAdminPOST` attempt, and `execGETResult` / `execPOSTOk`
the outcomes of the exec-based fallback calls. -/
structure ClientEnv where
  directGET : Nat → Option String
  directPOSTOk : Bool
  execGETResult : Except String String
  execPOSTOk : Bool

/-- The direct-attempt success test of fetchEnvoyEndpoint:
`err == nil && len(data) > 0`. -/
def directGETSuccess : Option String → Bool
  | some s => !s.isEmpty
  | none => false

/-- The bounded retry loop of fetchEnvoyEndpoint: attempts are numbered from
`i`, at most `fuel` of them are made; returns the first non-error, non-empty
body together with the number of attempts consumed so far. -/
def directLoop (env : ClientEnv) : Nat → Nat → Option (String × Nat)
  | _, 0 => none
  | i, fuel + 1 =>
      if directGETSuccess (env.directGET i) then
        some ((env.directGET i).getD "", i + 1)
      else
        directLoop env (i + 1) fuel

/-- Result of one endpoint fetch: the returned value, the number of direct
GET attempts that were made, and the exec calls that were issued. -/
structure FetchOutcome where
  result : Except String String
  directTries : Nat
  execCalls : List ExecCall
deriving Repr

/-- `fetchEnvoyEndpoint` from snap.go: when `AllocIP` is known, up to
`maxRetries = 3` direct GET attempts, returning the first non-error non-empty
body; on exhaustion (or with no IP) one exec-based fallback call —
`EnvoyAdminGETViaExec(allocID, sidecarTask, port, endpoint)`, which runs the
fixed `sh -c curl` command in the sidecar task. -/
def fetchEnvoyEndpoint (env : ClientEnv) (config : SnapshotConfig) (endpoint : String) : FetchOutcome :=
  if config.allocIP = "" then
    ⟨env.execGETResult, 0, [⟨config.sidecarTask, execCurlGETCmd EnvoyAdminPort endpoint⟩]⟩
  else
    match directLoop env 0 3 with
    | some (body, tries) => ⟨Except.ok body, tries, []⟩
    | none => ⟨env.execGETResult, 3, [⟨config.sidecarTask, execCurlGETCmd EnvoyAdminPort endpoint⟩]⟩

/-- `setEnvoyLogLevel` from snap.go: one direct POST attempt when the IP is
known; on failure (or with no IP), one exec-based fallback call through
`EnvoyAdminPOSTViaExec` in the sidecar task.  Returns the call outcome and
the exec calls issued. -/
def setEnvoyLogLevel (env : ClientEnv) (config : SnapshotConfig) (level : String) : Except String Unit × List ExecCall :=
  let path := "/logging?level=" ++ level
  if config.allocIP ≠ "" && env.directPOSTOk then
    (Except.ok (), [])
  else
    ((if env.execPOSTOk then Except.ok () else Except.error "exec curl failed"),
     [⟨config.sidecarTask, execCurlPOSTCmd EnvoyAdminPort path⟩])

/-- Outcome of CaptureSnapshot.  `panicked` models the Go runtime panic of
the unchecked slice `config.AllocID[:8]`, whose first evaluation (the opening
log line) happens before any other effect of the call. -/
inductive CaptureOutcome where
  | panicked
  | failed (msg : String)
  | ok
deriving DecidableEq, Repr

def CaptureOutcome.isError : CaptureOutcome → Bool
  | CaptureOutcome.failed _ => true
  | _ => false

/-- The filesystem / effect environment of one CaptureSnapshot call:
whether the temp dir can be created, the log-stream outcome per task, per
relative path whether a file write succeeds, the log-level call outcome per
level, the tcpdump outcome, the per-endpoint fetch outcome, and whether the
final tar.gz can be created. -/
structure CaptureEnv where
  mkdirTempOk : Bool
  streamLogs : String → Except String String
  writeOk : String → Bool
  setLevelOk : String → Bool
  tcpdump : Except String String
  fetchEnvoy : String → Except String String
  createTarGzOk : Bool

/-- The de-duplicated log task list built inline by CaptureSnapshot
(snap.go lines 54-60): `TaskName` first, then every extra that is non-blank
and different from `TaskName`. -/
def tasksToLog (config : SnapshotConfig) : List String :=
  config.taskName :: config.extraLogs.filter (fun t => !(t == "") && !(t == config.taskName))

/-- Go `strings.TrimPrefix(endpoint, "/")`. -/
def dropLeadingSlash (s : String) : String :=
  if s.startsWith "/" then s.drop 1 else s

/-- The `<task>-logs.txt` artifacts CaptureSnapshot ends up writing: a task
contributes one iff it is non-blank, its stream returned without error, and
the file write succeeded; a stream or write failure is only logged. -/
def logArtifacts (env : CaptureEnv) (config : SnapshotConfig) : List String :=
  (tasksToLog config).filterMap fun task =>
    if task = "" then none
    else
      match env.streamLogs task with
      | Except.error _ => none
      | Except.ok _ =>
          if env.writeOk (task ++ "-logs.txt") then some (task ++ "-logs.txt") else none

/-- The optional `capture.pcap` artifact: only when tcpdump is enabled,
produced data, and the write succeeded; every failure is only logged. -/
def pcapArtifacts (env : CaptureEnv) (config : SnapshotConfig) : List String :=
  if config.tcpdumpEnabled then
    match env.tcpdump with
    | Except.error _ => []
    | Except.ok data =>
        if data = "" then []
        else if env.writeOk "capture.pcap" then ["capture.pcap"] else []
  else []

/-- The `<endpoint>.json` artifacts: an endpoint contributes one iff its
fetch returned without error, with a non-empty body, and the write succeeded;
erroring or empty endpoints are warned and skipped. -/
def endpointArtifacts (env : CaptureEnv) (endpoints : List String) : List String :=
  endpoints.filterMap fun endpoint =>
    match env.fetchEnvoy endpoint with
    | Except.error _ => none
    | Except.ok data =>
        if data = "" then none
        else
          let file := dropLeadingSlash endpoint ++ ".json"
          if env.writeOk file then some file else none

/-- `CaptureSnapshot` from snap.go, sequentialized (the concurrent log
streams only produce artifacts and warnings; they never affect the returned
error).  Control flow: default the endpoints; log the opening line — whose
`AllocID[:8]` panics when the id is shorter than 8 bytes; create the temp
dir (error aborts); stream logs, set the log level, optionally run tcpdump,
fetch each endpoint — all failures absorbed; create the final tar.gz (error
aborts); optionally reset the log level (failure absorbed); return nil.
Returns the outcome together with the set of artifact files written. -/
def CaptureSnapshot (env : CaptureEnv) (config : SnapshotConfig) : CaptureOutcome × List String :=
  let endpoints := if config.endpoints.isEmpty then DefaultEndpoints else config.endpoints
  if config.allocID.length < 8 then
    (CaptureOutcome.panicked, [])
  else if env.mkdirTempOk = false then
    (CaptureOutcome.failed "failed to create temporary directory", [])
  else
    let logs := logArtifacts env config
    let level := if config.enableTrace then "trace" else "debug"
    let _setLevel := env.setLevelOk level
    let pcap := pcapArtifacts env config
    let eps := endpointArtifacts env endpoints
    let files := logs ++ pcap ++ eps
    if env.createTarGzOk = false then
      (CaptureOutcome.failed "failed to create tar.gz file", files)
    else
      let _reset := if config.skipLogLevelReset then true else env.setLevelOk "info"
      (CaptureOutcome.ok, files)

/- ### RawHTTPResponseDecoder: decodeChunked -/

/-- Numeric value of a hex digit. -/
def hexVal (c : Char) : Option Nat :=
  if '0' ≤ c ∧ c ≤ '9' then some (c.toNat - 48)
  else if 'a' ≤ c ∧ c ≤ 'f' then some (c.toNat - 87)
  else if 'A' ≤ c ∧ c ≤ 'F' then some (c.toNat - 55)
  else none

/-- Reads the tail of a hex chunk-length line up to its CRLF, accumulating
into `acc`; fails on any non-hex character or missing CRLF. -/
def readHexTail (acc : Nat) : List Char → Option (Nat × List Char)
  | '\r' :: '\n' :: rest => some (acc, rest)
  | c :: rest =>
      match hexVal c with
      | some v => readHexTail (acc * 16 + v) rest
      | none => none
  | [] => none

/-- Reads a hex chunk-length line (at least one hex digit, then CRLF). -/
def readHexLine : List Char → Option (Nat × List Char)
  | c :: rest =>
      match hexVal c with
      | some v => readHexTail v rest
      | none => none
  | [] => none

/-- Splits off exactly `n` payload characters, failing if fewer remain. -/
def takeExactly : Nat → List Char → Option (List Char × List Char)
  | 0, cs => some ([], cs)
  | _ + 1, [] => none
  | n + 1, c :: cs => (takeExactly n cs).map (fun p => (c :: p.1, p.2))

/-- Consumes the CRLF that trails a chunk payload. -/
def dropCRLF : List Char → Option (List Char)
  | '\r' :: '\n' :: rest => some rest
  | _ => none

/-- The chunk loop: read a hex length line, stop at a zero-length chunk,
otherwise consume that many payload characters and the trailing CRLF and
continue, concatenating payloads in order.  `fuel` only bounds recursion and
is chosen larger than the input at the call site. -/
def decodeChunksAux : Nat → List Char → Option (List Char)
  | 0, _ => none
  | fuel + 1, cs =>
      match readHexLine cs with
      | none => none
      | some (n, rest) =>
          if n = 0 then some []
          else
            match takeExactly n rest with
            | none => none
            | some (payload, rest2) =>
                match dropCRLF rest2 with
                | none => none
                | some rest3 =>
                    (decodeChunksAux fuel rest3).map (fun out => payload ++ out)

/-- Whole-input chunked parse: `some` with the concatenated payloads when the
input is valid chunked framing, `none` otherwise. -/
def chunkedParse (s : String) : Option (List Char) :=
  decodeChunksAux (s.data.length + 1) s.data

/-- Modelled from the spec: `decodeChunked` (the raw-socket chunked-transfer
decoder) is referenced by nomad tests (`TestDecodeChunked` and the raw-socket
branch of the mock `EnvoyAdminGET`) but its implementation file is not among
the provided sources.  Per the spec (section 4.4 and the invariants): attempt
a chunked-transfer decode — repeatedly read a hex length line, consume that
many payload bytes, skip the trailing CRLF, stop at a zero-length chunk,
concatenating payloads in order; if the input does not parse as valid chunked
framing, return it unchanged rather than failing. -/
def decodeChunked (s : String) : String :=
  match chunkedParse s with
  | some out => String.mk out
  | none => s

/-- Modelled from the spec: `buildTaskOrder` (the log task-list builder) is
referenced by `TestBuildTaskOrder` in pkg/cmd/snap_test.go but its
implementation file is not among the provided sources.  Per the spec
(section 8): order preserved as [sidecar, primary, ...extras] modulo
dedup — blanks are filtered, sidecar==primary yields a single entry, and
extras equal to the sidecar or the primary are dropped from the tail. -/
def buildTaskOrder (sidecar primary : String) (extras : List String) : List String :=
  (if sidecar = "" then [] else [sidecar]) ++
  (if primary = "" ∨ primary = sidecar then [] else [primary]) ++
  extras.filter (fun t => !(t == "") && !(t == sidecar) && !(t == primary))

/- ### Concrete environments and configurations used by witnesses and
counterexamples -/

/-- An exec capability with no HTTP tooling anywhere: every command fails to
transport. -/
def noToolSvc : Svc := fun _ _ _ => ⟨127, true, ""⟩

/-- An exec capability where only `wget --version` succeeds (in any task). -/
def onlyWgetSvc : Svc := fun _ _ cmd =>
  if cmd = ["wget", "--version"] then ⟨0, false, "GNU Wget 1.20"⟩ else ⟨127, true, ""⟩

/-- A client world where every direct GET attempt errors, the direct POST
fails, and the exec fallback succeeds. -/
def failingDirectEnv : ClientEnv :=
  ⟨fun _ => none, false, Except.ok "stats-body", true⟩

/-- A client world where every direct GET attempt returns an empty body
(a failure per fetchEnvoyEndpoint) and the exec fallback succeeds. -/
def emptyBodyEnv : ClientEnv :=
  ⟨fun _ => some "", false, Except.ok "fallback-body", true⟩

/-- A capture configuration with no known allocation IP. -/
def noIPConfig : SnapshotConfig :=
  ⟨"abcdef12-3456-7890-abcd-ef1234567890", "", "web", "envoy-sidecar",
   [], ".", ["envoy-sidecar"], 60, false, false, false⟩

/-- A capture configuration with a known allocation IP. -/
def withIPConfig : SnapshotConfig :=
  ⟨"abcdef12-3456-7890-abcd-ef1234567890", "10.0.0.5", "web", "envoy-sidecar",
   [], ".", ["envoy-sidecar"], 60, false, true, false⟩

/-- A capture configuration whose allocation id is shorter than 8 bytes. -/
def shortIDConfig : SnapshotConfig :=
  ⟨"short", "", "web", "envoy-sidecar", [], ".", [], 60, false, false, false⟩

/-- A capture world where everything that may degrade gracefully fails (log
streams, file writes, log-level POSTs, tcpdump, every endpoint fetch) while
the two infrastructure steps succeed. -/
def adverseCaptureEnv : CaptureEnv :=
  ⟨true,
   fun _ => Except.error "log streaming error",
   fun _ => false,
   fun _ => false,
   Except.error "tcpdump not available in sidecar image",
   fun _ => Except.error "exec curl failed",
   true⟩

/- ### Supporting lemmas -/

/-- A successful strategy returned by the resolve loop is always the first
task (in list order) whose probe succeeds, paired with that probe's method,
regardless of the accumulated `tried` prefix. -/
theorem resolveLoop_ok_finds_first (svc : Svc) (a : String) :
    ∀ (order tried : List String) (s : ExecStrategy),
      resolveLoop svc a order tried = ResolveOutcome.ok s →
      List.find? (fun t => (ProbeHTTPCapability svc a t).isSome) order = some s.task ∧
      ProbeHTTPCapability svc a s.task = some s.method := by
  intro order
  induction order with
  | nil =>
      intro tried s h
      simp only [resolveLoop] at h
      split at h <;> simp_all
  | cons t rest ih =>
      intro tried s h
      simp only [resolveLoop] at h
      cases hp : ProbeHTTPCapability svc a t with
      | some m =>
          rw [hp] at h
          simp only [ResolveOutcome.ok.injEq] at h
          subst h
          simp [List.find?, hp]
      | none =>
          rw [hp] at h
          have hih := ih (tried ++ [t]) s h
          simp [List.find?, hp, hih.1, hih.2]

/-- When the allocation id is short and no task is capable, the resolve loop
reaches the message-building path and panics, for any `tried` prefix. -/
theorem resolveLoop_panics_when_short (svc : Svc) (a : String) (ha : a.length < 8) :
    ∀ (order tried : List String),
      (∀ t, t ∈ order → ProbeHTTPCapability svc a t = none) →
      resolveLoop svc a order tried = ResolveOutcome.panicked := by
  intro order
  induction order with
  | nil => intro tried _; simp [resolveLoop, ha]
  | cons t rest ih =>
      intro tried hall
      simp only [resolveLoop, hall t (by simp)]
      exact ih (tried ++ [t]) (fun u hu => hall u (by simp [hu]))

/-- With an allocation id of at least 8 bytes the resolve loop can never
panic, for any task order and `tried` prefix. -/
theorem resolveLoop_never_panics (svc : Svc) (a : String) (ha : 8 ≤ a.length) :
    ∀ (order tried : List String),
      resolveLoop svc a order tried ≠ ResolveOutcome.panicked := by
  have hn : ¬ a.length < 8 := by omega
  intro order
  induction order with
  | nil => intro tried; simp [resolveLoop, hn]
  | cons t rest ih =>
      intro tried
      simp only [resolveLoop]
      cases ProbeHTTPCapability svc a t with
      | some m => simp
      | none => exact ih (tried ++ [t])

/-- If all three direct attempts fail, the retry loop reports exhaustion. -/
theorem directLoop_all_fail (env : ClientEnv)
    (h : ∀ i, i < 3 → directGETSuccess (env.directGET i) = false) :
    directLoop env 0 3 = none := by
  simp [directLoop, h 0 (by omega), h 1 (by omega), h 2 (by omega)]

/-- The retry loop stops at the first non-error, non-empty body, having made
exactly `i + 1` attempts. -/
theorem directLoop_first_success (env : ClientEnv) (i : Nat) (body : String)
    (hi : i < 3) (hb : env.directGET i = some body) (hne : body ≠ "")
    (hprev : ∀ j, j < i → directGETSuccess (env.directGET j) = false) :
    directLoop env 0 3 = some (body, i + 1) := by
  have hbe : body.isEmpty = false := by
    cases hbe : body.isEmpty
    · rfl
    · exact absurd ((String.isEmpty_iff body).mp hbe) hne
  have hs : directGETSuccess (some body) = true := by
    simp [directGETSuccess, hbe]
  interval_cases i
  · simp [directLoop, hb, hs]
  · simp [directLoop, hprev 0 (by omega), hb, hs]
  · simp [directLoop, hprev 0 (by omega), hprev 1 (by omega), hb, hs]

/- ### Claim theorems -/

/-- C1, counterexample: in a capture call with no allocation IP, the endpoint
fetch issues an exec-based admin GET — the fixed `sh -c curl` command in the
sidecar task — while the complete exec trace of the call contains no
availability probe at all (the single call issued is not a probe command), so
the request does not go through a (task, method) pair whose probe succeeded
earlier in the call, and it is not produced by ResolveExecStrategy. -/
theorem execFallback_unprobed_curl_cex :
    (fetchEnvoyEndpoint failingDirectEnv noIPConfig "/stats").execCalls =
      [⟨"envoy-sidecar", ["sh", "-c", "curl -s http://127.0.0.1:19000/stats"]⟩] ∧
    isProbeCmd ["sh", "-c", "curl -s http://127.0.0.1:19000/stats"] = false :=
  ⟨rfl, rfl⟩

/-- C1, amended: the exec fallback never goes through ResolveExecStrategy or
any availability probe.  Every exec-based admin request issued by
fetchEnvoyEndpoint (GET) or setEnvoyLogLevel (POST) is the fixed
`sh -c curl` command against 127.0.0.1:19000 in the configured sidecar task,
and no probe command is ever executed by these calls. -/
theorem execFallback_fixed_curl_no_probe (env : ClientEnv) (config : SnapshotConfig)
    (endpoint level : String) :
    (∀ c, c ∈ (fetchEnvoyEndpoint env config endpoint).execCalls →
      c = ⟨config.sidecarTask, execCurlGETCmd EnvoyAdminPort endpoint⟩ ∧
      isProbeCmd c.cmd = false) ∧
    (∀ c, c ∈ (setEnvoyLogLevel env config level).2 →
      c = ⟨config.sidecarTask, execCurlPOSTCmd EnvoyAdminPort ("/logging?level=" ++ level)⟩ ∧
      isProbeCmd c.cmd = false) := by
  constructor
  · intro c hc
    unfold fetchEnvoyEndpoint at hc
    split at hc
    · simp at hc
      subst hc
      exact ⟨rfl, rfl⟩
    · split at hc
      · simp at hc
      · simp at hc
        subst hc
        exact ⟨rfl, rfl⟩
  · intro c hc
    unfold setEnvoyLogLevel at hc
    split at hc
    · simp at hc
    · simp at hc
      subst hc
      exact ⟨rfl, rfl⟩

/-- C1, witness for the amended theorem at a concrete call. -/
theorem execFallback_fixed_curl_no_probe_witness :
    (⟨"envoy-sidecar", ["sh", "-c", "curl -s http://127.0.0.1:19000/certs"]⟩ : ExecCall) =
      ⟨noIPConfig.sidecarTask, execCurlGETCmd EnvoyAdminPort "/certs"⟩ ∧
    isProbeCmd (⟨"envoy-sidecar",
      ["sh", "-c", "curl -s http://127.0.0.1:19000/certs"]⟩ : ExecCall).cmd = false :=
  (execFallback_fixed_curl_no_probe failingDirectEnv noIPConfig "/certs" "debug").1
    ⟨"envoy-sidecar", ["sh", "-c", "curl -s http://127.0.0.1:19000/certs"]⟩ (by decide)

/-- C2: with a known allocation IP, an endpoint fetch where every direct
attempt fails (error or empty body) makes exactly 3 direct GET attempts and
then exactly one exec-based call; and the first direct attempt returning a
non-error, non-empty body ends the fetch immediately with that body and no
exec call. -/
theorem fetchEnvoyEndpoint_three_direct_then_exec (env : ClientEnv)
    (config : SnapshotConfig) (endpoint : String) (hip : config.allocIP ≠ "") :
    ((∀ i, i < 3 → directGETSuccess (env.directGET i) = false) →
      fetchEnvoyEndpoint env config endpoint =
        ⟨env.execGETResult, 3,
         [⟨config.sidecarTask, execCurlGETCmd EnvoyAdminPort endpoint⟩]⟩) ∧
    (∀ i body, i < 3 → env.directGET i = some body → body ≠ "" →
      (∀ j, j < i → directGETSuccess (env.directGET j) = false) →
      fetchEnvoyEndpoint env config endpoint = ⟨Except.ok body, i + 1, []⟩) := by
  constructor
  · intro hall
    simp [fetchEnvoyEndpoint, hip, directLoop_all_fail env hall]
  · intro i body hi hb hne hprev
    simp [fetchEnvoyEndpoint, hip, directLoop_first_success env i body hi hb hne hprev]

/-- C2, witness: three empty-body direct attempts, then the exec fallback. -/
theorem fetchEnvoyEndpoint_three_direct_then_exec_witness :
    fetchEnvoyEndpoint emptyBodyEnv withIPConfig "/stats" =
      ⟨Except.ok "fallback-body", 3,
       [⟨"envoy-sidecar", execCurlGETCmd EnvoyAdminPort "/stats"⟩]⟩ :=
  (fetchEnvoyEndpoint_three_direct_then_exec emptyBodyEnv withIPConfig "/stats"
    (by decide)).1 (fun _ _ => rfl)

/-- C3: with a well-formed allocation id, CaptureSnapshot returns an error
exactly when the temporary working directory or the final tar.gz archive
cannot be created; every other failure leaves the call successful. -/
theorem captureSnapshot_fails_only_on_infra (env : CaptureEnv)
    (config : SnapshotConfig) (h : 8 ≤ config.allocID.length) :
    ((CaptureSnapshot env config).1.isError = true ↔
      (env.mkdirTempOk = false ∨ env.createTarGzOk = false)) ∧
    ((CaptureSnapshot env config).1 = CaptureOutcome.ok ↔
      (env.mkdirTempOk = true ∧ env.createTarGzOk = true)) := by
  have hn : ¬ config.allocID.length < 8 := by omega
  cases hm : env.mkdirTempOk <;> cases ht : env.createTarGzOk <;>
    simp [CaptureSnapshot, hn, hm, ht, CaptureOutcome.isError]

/-- C3, witness: a capture where every log stream, every file write, every
log-level POST, tcpdump and every endpoint fetch fail still succeeds, since
the temp directory and the archive can be created. -/
theorem captureSnapshot_fails_only_on_infra_witness :
    (CaptureSnapshot adverseCaptureEnv withIPConfig).1 = CaptureOutcome.ok :=
  (captureSnapshot_fails_only_on_infra adverseCaptureEnv withIPConfig
    (by decide)).2.mpr ⟨rfl, rfl⟩

/-- C4: BuildGETCommand and BuildPOSTCommand are pure functions returning,
for every (port, path), exactly one fixed command template per recognized
method (curl, wget, python3, node, bash/dev-tcp) and `none` for every
unrecognized method value; pinned against the golden values of
TestBuildGETCommand / TestBuildPOSTCommand. -/
theorem buildCommands_one_fixed_template_per_method :
    (∀ (port : Int) (path : String),
      BuildGETCommand MethodCurl port path = some ["curl", "-s", adminURL port path] ∧
      BuildGETCommand MethodWget port path = some ["wget", "-qO-", adminURL port path] ∧
      BuildGETCommand MethodPython3 port path = some ["python3", "-c",
        "import urllib.request,sys;sys.stdout.buffer.write(urllib.request.urlopen(\"" ++
        adminURL port path ++ "\").read())"] ∧
      BuildGETCommand MethodNode port path = some ["node", "-e",
        "var http=require(\"http\");http.get(\"" ++ adminURL port path ++
        "\",function(r)\x7bvar d=[];r.on(\"data\",function(c)\x7bd.push(c)\x7d);r.on(\"end\",function()\x7bprocess.stdout.write(Buffer.concat(d))\x7d)\x7d).on(\"error\",function()\x7bprocess.exit(1)\x7d)"] ∧
      BuildGETCommand MethodBashTCP port path = some ["bash", "-c",
        "exec 3<>/dev/tcp/127.0.0.2/" ++ toString port ++ "; echo -e \"GET " ++ path ++
        " HTTP/1.1\\r\\nHost: localhost\\r\\nConnection: close\\r\\n\\r\\n\" >&3; cat <&3"]) ∧
    (∀ (port : Int) (path : String),
      BuildPOSTCommand MethodCurl port path =
        some ["curl", "-s", "-X", "POST", adminURL port path] ∧
      BuildPOSTCommand MethodWget port path =
        some ["wget", "-qO-", "--post-data=", adminURL port path] ∧
      BuildPOSTCommand MethodPython3 port path = some ["python3", "-c",
        "import urllib.request;urllib.request.urlopen(urllib.request.Request(\"" ++
        adminURL port path ++ "\",data=b\"\",method=\"POST\"))"] ∧
      BuildPOSTCommand MethodNode port path = some ["node", "-e",
        "var http=require(\"http\");var r=http.request(\x7bhostname:\"127.0.0.2\",port:" ++
        toString port ++ ",path:\"" ++ path ++
        "\",method:\"POST\"\x7d,function(res)\x7bres.resume()\x7d);r.on(\"error\",function()\x7bprocess.exit(1)\x7d);r.end()"] ∧
      BuildPOSTCommand MethodBashTCP port path = some ["bash", "-c",
        "exec 3<>/dev/tcp/127.0.0.2/" ++ toString port ++ "; echo -e \"POST " ++ path ++
        " HTTP/1.1\\r\\nHost: localhost\\r\\nConnection: close\\r\\nContent-Length: 0\\r\\n\\r\\n\" >&3; cat <&3"]) ∧
    (BuildGETCommand MethodCurl 19001 "/stats" =
        some ["curl", "-s", "http://127.0.0.2:19001/stats"] ∧
      BuildGETCommand MethodWget 19001 "/config_dump" =
        some ["wget", "-qO-", "http://127.0.0.2:19001/config_dump"] ∧
      BuildGETCommand MethodPython3 19001 "/stats" = some ["python3", "-c",
        "import urllib.request,sys;sys.stdout.buffer.write(urllib.request.urlopen(\"http://127.0.0.2:19001/stats\").read())"] ∧
      BuildGETCommand MethodNode 19001 "/config_dump" = some ["node", "-e",
        "var http=require(\"http\");http.get(\"http://127.0.0.2:19001/config_dump\",function(r)\x7bvar d=[];r.on(\"data\",function(c)\x7bd.push(c)\x7d);r.on(\"end\",function()\x7bprocess.stdout.write(Buffer.concat(d))\x7d)\x7d).on(\"error\",function()\x7bprocess.exit(1)\x7d)"] ∧
      BuildGETCommand MethodBashTCP 19001 "/clusters" = some ["bash", "-c",
        "exec 3<>/dev/tcp/127.0.0.2/19001; echo -e \"GET /clusters HTTP/1.1\\r\\nHost: localhost\\r\\nConnection: close\\r\\n\\r\\n\" >&3; cat <&3"] ∧
      BuildPOSTCommand MethodCurl 19001 "/logging?level=debug" =
        some ["curl", "-s", "-X", "POST", "http://127.0.0.2:19001/logging?level=debug"] ∧
      BuildPOSTCommand MethodWget 19001 "/logging?level=debug" =
        some ["wget", "-qO-", "--post-data=", "http://127.0.0.2:19001/logging?level=debug"] ∧
      BuildPOSTCommand MethodPython3 19001 "/logging?level=debug" = some ["python3", "-c",
        "import urllib.request;urllib.request.urlopen(urllib.request.Request(\"http://127.0.0.2:19001/logging?level=debug\",data=b\"\",method=\"POST\"))"] ∧
      BuildPOSTCommand MethodNode 19001 "/logging?level=debug" = some ["node", "-e",
        "var http=require(\"http\");var r=http.request(\x7bhostname:\"127.0.0.2\",port:19001,path:\"/logging?level=debug\",method:\"POST\"\x7d,function(res)\x7bres.resume()\x7d);r.on(\"error\",function()\x7bprocess.exit(1)\x7d);r.end()"] ∧
      BuildPOSTCommand MethodBashTCP 19001 "/logging?level=debug" = some ["bash", "-c",
        "exec 3<>/dev/tcp/127.0.0.2/19001; echo -e \"POST /logging?level=debug HTTP/1.1\\r\\nHost: localhost\\r\\nConnection: close\\r\\nContent-Length: 0\\r\\n\\r\\n\" >&3; cat <&3"]) ∧
    (∀ (m : HTTPMethod) (port : Int) (path : String),
      m ≠ MethodCurl → m ≠ MethodWget → m ≠ MethodPython3 → m ≠ MethodNode →
      m ≠ MethodBashTCP →
      BuildGETCommand m port path = none ∧ BuildPOSTCommand m port path = none) := by
  refine ⟨fun port path => ⟨rfl, rfl, rfl, rfl, rfl⟩,
          fun port path => ⟨rfl, rfl, rfl, rfl, rfl⟩,
          ⟨rfl, rfl, rfl, rfl, rfl, rfl, rfl, rfl, rfl, rfl⟩,
          ?_⟩
  intro m port path h0 h1 h2 h3 h4
  constructor <;> simp [BuildGETCommand, BuildPOSTCommand, h0, h1, h2, h3, h4]

/-- C4, witness: the unrecognized method value 99 yields no command. -/
theorem buildCommands_one_fixed_template_per_method_witness :
    BuildGETCommand 99 19001 "/stats" = none ∧
    BuildPOSTCommand 99 19001 "/stats" = none :=
  buildCommands_one_fixed_template_per_method.2.2.2 99 19001 "/stats"
    (by decide) (by decide) (by decide) (by decide) (by decide)

/-- C5: task order dominates method preference.  If the first task of the
order has any capable method, the resolved strategy uses that first task
(with its own best method); and in general any resolved strategy's task is
the earliest capable task in the list, paired with that task's probed
method. -/
theorem resolveExecStrategy_task_order_dominates (svc : Svc) (allocID : String) :
    (∀ t rest m, ProbeHTTPCapability svc allocID t = some m →
      ResolveExecStrategy svc allocID (t :: rest) = ResolveOutcome.ok ⟨t, m⟩) ∧
    (∀ order s, ResolveExecStrategy svc allocID order = ResolveOutcome.ok s →
      List.find? (fun t => (ProbeHTTPCapability svc allocID t).isSome) order = some s.task ∧
      ProbeHTTPCapability svc allocID s.task = some s.method) := by
  constructor
  · intro t rest m hp
    simp [ResolveExecStrategy, resolveLoop, hp]
  · intro order s h
    exact resolveLoop_ok_finds_first svc allocID order [] s h

/-- C5, witness: the first task only has wget (the weakest full client
available there), a later task is irrelevant: the strategy commits to the
first task. -/
theorem resolveExecStrategy_task_order_dominates_witness :
    ResolveExecStrategy onlyWgetSvc "abcdef12-3456-7890-abcd-ef1234567890"
      ["connect-proxy-web", "web"] =
      ResolveOutcome.ok ⟨"connect-proxy-web", MethodWget⟩ :=
  (resolveExecStrategy_task_order_dominates onlyWgetSvc
    "abcdef12-3456-7890-abcd-ef1234567890").1 "connect-proxy-web" ["web"]
    MethodWget (by decide)

/-- C6: within one task, ProbeHTTPCapability returns the first method in the
fixed order curl, wget, python3, node, bash whose probe command transports
without error and exits 0; a candidate's own failure (missing tool or
non-zero exit) only advances to the next candidate, and when every candidate
fails the probe reports a miss rather than an error. -/
theorem probeHTTPCapability_fixed_method_order (svc : Svc) (allocID task : String) :
    probeCommands.map (fun probe => probe.1) =
      [MethodCurl, MethodWget, MethodPython3, MethodNode, MethodBashTCP] ∧
    (execOK (svc allocID task ["curl", "--version"]) = true →
      ProbeHTTPCapability svc allocID task = some MethodCurl) ∧
    (execOK (svc allocID task ["curl", "--version"]) = false →
      execOK (svc allocID task ["wget", "--version"]) = true →
      ProbeHTTPCapability svc allocID task = some MethodWget) ∧
    (execOK (svc allocID task ["curl", "--version"]) = false →
      execOK (svc allocID task ["wget", "--version"]) = false →
      execOK (svc allocID task ["python3", "--version"]) = true →
      ProbeHTTPCapability svc allocID task = some MethodPython3) ∧
    (execOK (svc allocID task ["curl", "--version"]) = false →
      execOK (svc allocID task ["wget", "--version"]) = false →
      execOK (svc allocID task ["python3", "--version"]) = false →
      execOK (svc allocID task ["node", "--version"]) = true →
      ProbeHTTPCapability svc allocID task = some MethodNode) ∧
    (execOK (svc allocID task ["curl", "--version"]) = false →
      execOK (svc allocID task ["wget", "--version"]) = false →
      execOK (svc allocID task ["python3", "--version"]) = false →
      execOK (svc allocID task ["node", "--version"]) = false →
      execOK (svc allocID task ["bash", "-c", "echo ok"]) = true →
      ProbeHTTPCapability svc allocID task = some MethodBashTCP) ∧
    (execOK (svc allocID task ["curl", "--version"]) = false →
      execOK (svc allocID task ["wget", "--version"]) = false →
      execOK (svc allocID task ["python3", "--version"]) = false →
      execOK (svc allocID task ["node", "--version"]) = false →
      execOK (svc allocID task ["bash", "-c", "echo ok"]) = false →
      ProbeHTTPCapability svc allocID task = none) := by
  refine ⟨rfl, ?_, ?_, ?_, ?_, ?_, ?_⟩
  · intro h1
    simp [ProbeHTTPCapability, probeCommands, List.find?, h1]
  · intro h1 h2
    simp [ProbeHTTPCapability, probeCommands, List.find?, h1, h2]
  · intro h1 h2 h3
    simp [ProbeHTTPCapability, probeCommands, List.find?, h1, h2, h3]
  · intro h1 h2 h3 h4
    simp [ProbeHTTPCapability, probeCommands, List.find?, h1, h2, h3, h4]
  · intro h1 h2 h3 h4 h5
    simp [ProbeHTTPCapability, probeCommands, List.find?, h1, h2, h3, h4, h5]
  · intro h1 h2 h3 h4 h5
    simp [ProbeHTTPCapability, probeCommands, List.find?, h1, h2, h3, h4, h5]

/-- C6, witness: with curl missing and wget present, the probe skips the
failed curl candidate and returns wget. -/
theorem probeHTTPCapability_fixed_method_order_witness :
    ProbeHTTPCapability onlyWgetSvc "abcdef12-3456-7890-abcd-ef1234567890" "web" =
      some MethodWget :=
  (probeHTTPCapability_fixed_method_order onlyWgetSvc
    "abcdef12-3456-7890-abcd-ef1234567890" "web").2.2.1 (by decide) (by decide)

/-- C7: the chunked decoder maps the two reference inputs to "hello" and
"hello world"; any input that does not parse as valid chunked framing
(including a non-chunked JSON body and the empty input) is returned
unchanged; and in general every input is either passed through unchanged or
decoded exactly to the concatenation of its declared chunks — never
truncated, never an error. -/
theorem decodeChunked_decodes_or_passthrough :
    decodeChunked "5\r\nhello\r\n0\r\n\r\n" = "hello" ∧
    decodeChunked "5\r\nhello\r\n6\r\n world\r\n0\r\n\r\n" = "hello world" ∧
    decodeChunked "\x7b\"stats\": \"data\"\x7d" = "\x7b\"stats\": \"data\"\x7d" ∧
    decodeChunked "" = "" ∧
    (∀ s, chunkedParse s = none → decodeChunked s = s) ∧
    (∀ s, decodeChunked s = s ∨ chunkedParse s = some (decodeChunked s).data) := by
  refine ⟨rfl, rfl, rfl, rfl, ?_, ?_⟩
  · intro s h
    simp [decodeChunked, h]
  · intro s
    cases h : chunkedParse s with
    | none => exact Or.inl (by simp [decodeChunked, h])
    | some out => exact Or.inr (by simp [decodeChunked, h])

/-- C7, witness: a body that is not chunked framing passes through. -/
theorem decodeChunked_decodes_or_passthrough_witness :
    decodeChunked "plain body" = "plain body" :=
  decodeChunked_decodes_or_passthrough.2.2.2.2.1 "plain body" rfl

/-- C8, counterexample: a direct-HTTP response with the non-2xx status 304
is returned as a success by both EnvoyAdminGET and EnvoyAdminPOST, because
the source only treats statuses of at least 400 as errors — refuting the
claim that every non-2xx status yields an error. -/
theorem envoyAdmin_non2xx_accepted_cex :
    EnvoyAdminGET (some ⟨304, "cached", false⟩) = Except.ok "cached" ∧
    (304 < 200 ∨ 299 < 304) ∧
    EnvoyAdminPOST (some ⟨304, "", false⟩) = Except.ok () :=
  ⟨rfl, Or.inr (by norm_num), rfl⟩

/-- C8, amended: a direct-HTTP admin call returns an error exactly when the
transport fails, the body read fails (GET only), or the status is at least
400; statuses below 400 — including non-2xx statuses such as 304 — are
returned as success. -/
theorem envoyAdmin_error_iff_ge_400 (r : HTTPResponse) :
    (isOkE (EnvoyAdminGET (some r)) = true ↔ (r.readErr = false ∧ r.status < 400)) ∧
    isOkE (EnvoyAdminGET none) = false ∧
    (isOkE (EnvoyAdminPOST (some r)) = true ↔ r.status < 400) ∧
    isOkE (EnvoyAdminPOST none) = false := by
  refine ⟨?_, rfl, ?_, rfl⟩
  · cases hre : r.readErr <;> by_cases hs : (400:Int) ≤ r.status <;>
      simp [EnvoyAdminGET, isOkE, hre, hs] <;> omega
  · by_cases hs : (400:Int) ≤ r.status <;>
      simp [EnvoyAdminPOST, isOkE, hs] <;> omega

/-- C8, witness for the amended theorem: a 404 GET response is an error and
a 200 GET response is a success. -/
theorem envoyAdmin_error_iff_ge_400_witness :
    isOkE (EnvoyAdminGET (some ⟨404, "no such endpoint", false⟩)) = false ∧
    isOkE (EnvoyAdminGET (some ⟨200, "stats-data", false⟩)) = true := by
  constructor
  · cases hok : isOkE (EnvoyAdminGET (some ⟨404, "no such endpoint", false⟩))
    · rfl
    · have h := ((envoyAdmin_error_iff_ge_400 ⟨404, "no such endpoint", false⟩).1.mp hok).2
      simp at h
  · exact (envoyAdmin_error_iff_ge_400 ⟨200, "stats-data", false⟩).1.mpr ⟨rfl, by norm_num⟩

/-- C9: the log task-list builder keeps the order [sidecar, primary,
...extras] modulo dedup — pinned against all eight TestBuildTaskOrder
vectors — and in general: the result is a sublist of sidecar :: primary ::
extras (order preserved), blanks are filtered, a non-blank sidecar is always
the head (so sidecar == primary yields the single entry), and neither the
sidecar nor the primary ever occurs twice. -/
theorem buildTaskOrder_dedup_order :
    buildTaskOrder "connect-proxy-web" "web" [] = ["connect-proxy-web", "web"] ∧
    buildTaskOrder "connect-proxy-web" "web" ["connect-proxy-web"] =
      ["connect-proxy-web", "web"] ∧
    buildTaskOrder "connect-proxy-web" "web" ["web", "redis"] =
      ["connect-proxy-web", "web", "redis"] ∧
    buildTaskOrder "connect-proxy-web" "connect-proxy-web" [] = ["connect-proxy-web"] ∧
    buildTaskOrder "" "web" ["redis"] = ["web", "redis"] ∧
    buildTaskOrder "connect-proxy-web" "" ["web"] = ["connect-proxy-web", "web"] ∧
    buildTaskOrder "" "" ["", ""] = [] ∧
    buildTaskOrder "connect-proxy-web" "web" ["redis", "postgres"] =
      ["connect-proxy-web", "web", "redis", "postgres"] ∧
    (∀ s p e, List.Sublist (buildTaskOrder s p e) (s :: p :: e)) ∧
    (∀ s p e, "" ∉ buildTaskOrder s p e) ∧
    (∀ s p e, s ≠ "" → (buildTaskOrder s p e).head? = some s) ∧
    (∀ s p e, (buildTaskOrder s p e).count s ≤ 1 ∧ (buildTaskOrder s p e).count p ≤ 1) := by
  refine ⟨rfl, rfl, rfl, rfl, rfl, rfl, rfl, rfl, ?_, ?_, ?_, ?_⟩
  · intro s p e
    unfold buildTaskOrder
    have h1 : List.Sublist (if s = "" then ([] : List String) else [s]) [s] := by
      split <;> simp
    have h2 : List.Sublist (if p = "" ∨ p = s then ([] : List String) else [p]) [p] := by
      split <;> simp
    have h3 : List.Sublist (e.filter (fun t => !(t == "") && !(t == s) && !(t == p))) e :=
      List.filter_sublist e
    have hall := List.Sublist.append h1 (List.Sublist.append h2 h3)
    simpa [List.append_assoc] using hall
  · intro s p e
    simp only [buildTaskOrder, List.mem_append, List.mem_filter]
    rintro ((h | h) | h)
    · by_cases hs : s = ""
      · simp [hs] at h
      · simp [hs] at h
        exact hs h.symm
    · by_cases hp : p = "" ∨ p = s
      · simp [hp] at h
      · simp [hp] at h
        exact hp (Or.inl h.symm)
    · simp at h
  · intro s p e hs
    simp [buildTaskOrder, hs]
  · intro s p e
    have hC : ∀ q : String, q = s ∨ q = p →
        (e.filter (fun t => !(t == "") && !(t == s) && !(t == p))).count q = 0 := by
      intro q hq
      rw [List.count_eq_zero]
      intro hmem
      have hpred := List.of_mem_filter hmem
      rcases hq with rfl | rfl <;> simp at hpred
    constructor
    · simp only [buildTaskOrder, List.count_append, hC s (Or.inl rfl)]
      split_ifs with h1 h2 <;> simp_all [List.count_cons, List.count_nil]
    · simp only [buildTaskOrder, List.count_append, hC p (Or.inr rfl)]
      split_ifs with h1 h2 <;>
        simp_all [List.count_cons, List.count_nil] <;>
        (try split_ifs) <;> simp_all

/-- C9, witness: a non-blank sidecar heads the list. -/
theorem buildTaskOrder_dedup_order_witness :
    (buildTaskOrder "connect-proxy-web" "web" ["redis"]).head? =
      some "connect-proxy-web" :=
  buildTaskOrder_dedup_order.2.2.2.2.2.2.2.2.2.2.1 "connect-proxy-web" "web" ["redis"]
    (by decide)

/-- C10: CaptureSnapshot and ResolveExecStrategy slice the allocation id as
allocID[:8] with no length check: with an id shorter than 8 bytes
CaptureSnapshot always panics (its opening log line evaluates the slice) and
ResolveExecStrategy panics whenever its failure path is reached; with an id
of at least 8 bytes neither entry point can panic. -/
theorem allocID_len8_precondition :
    (∀ env config, config.allocID.length < 8 →
      (CaptureSnapshot env config).1 = CaptureOutcome.panicked) ∧
    (∀ env config, 8 ≤ config.allocID.length →
      (CaptureSnapshot env config).1 ≠ CaptureOutcome.panicked) ∧
    (∀ svc a order, a.length < 8 →
      (∀ t, t ∈ order → ProbeHTTPCapability svc a t = none) →
      ResolveExecStrategy svc a order = ResolveOutcome.panicked) ∧
    (∀ svc a order, 8 ≤ a.length →
      ResolveExecStrategy svc a order ≠ ResolveOutcome.panicked) := by
  refine ⟨?_, ?_, ?_, ?_⟩
  · intro env config h
    simp [CaptureSnapshot, h]
  · intro env config h
    have hn : ¬ config.allocID.length < 8 := by omega
    cases hm : env.mkdirTempOk <;> cases ht : env.createTarGzOk <;>
      simp [CaptureSnapshot, hn, hm, ht]
  · intro svc a order ha hall
    exact resolveLoop_panics_when_short svc a ha order [] hall
  · intro svc a order ha
    exact resolveLoop_never_panics svc a ha order []

/-- C10, witness: a 5-byte allocation id makes CaptureSnapshot panic, and
makes ResolveExecStrategy panic when no task is capable. -/
theorem allocID_len8_precondition_witness :
    (CaptureSnapshot adverseCaptureEnv shortIDConfig).1 = CaptureOutcome.panicked ∧
    ResolveExecStrategy noToolSvc "short" ["connect-proxy-web", "web"] =
      ResolveOutcome.panicked :=
  ⟨allocID_len8_precondition.1 adverseCaptureEnv shortIDConfig (by decide),
   allocID_len8_precondition.2.2.1 noToolSvc "short" ["connect-proxy-web", "web"]
     (by decide) (by decide)⟩
